import Mathlib

/-!
Verification of the test-execution engine (TestFramework.h / TestFramework.cpp).

The engine is embedded shallowly as a trace semantics: running a suite
produces a list of console events (one per printed line or fixture call).
Each test body is modelled by its observable behaviour: the lines it prints
itself (the ASSERT macros print directly to the shared console), the kind of
value it throws, if any, and its nominal running time in milliseconds, which
the timeout wait is compared against.  Sequential execution is a function;
concurrent execution is a relation that allows every interleaving of the
enqueued task traces between the BeforeAll and AfterAll brackets.

Timed execution follows the source faithfully: the body runs on an async
future, the wait gives up after the timeout, and - because the future
returned by std::async blocks in its destructor until the body finishes -
the body still runs to completion and its own printed lines still reach the
console.  The trace linearises a timed-out task as: body start, timeout
line, then the lines of the (still completing) body.
-/

namespace TestFramework

/-- Kind of value a test body throws, mirroring the three catch paths of
executeTest: nothing, a std::exception carrying a typeid name and a what()
message, or a value not derived from std::exception. -/
inductive Thrown where
  | none
  | stdExc (typeName : String) (what : String)
  | unknown
deriving DecidableEq, Repr

/-- Observable behaviour of one invocation of a test body: the console lines
it prints on its own (assertion failures and other cout writes, in order),
what it throws when it returns, and how long it takes in milliseconds. -/
structure BodyBehavior where
  output : List String
  thrown : Thrown
  duration : Int
deriving Repr

/-- Mirror of the TestCase class of TestFramework.h, with the body replaced
by its observable behaviour per repetition index. -/
structure TestCase where
  name : String
  disabled : Bool := false
  timeout : Int := 0
  repetitions : Int := 1
  expectedExceptionTypeName : String := ""
  concurrent : Bool := false
  isNondeterministic : Bool := false
  body : Int → BodyBehavior

/-- Mirror of the TestSuite class: a name, whether the fixture pointer is
non-null, and the test cases in insertion order. -/
structure TestSuite where
  name : String
  hasFixture : Bool := true
  testCases : List TestCase

/-- One console event of a run.  Printed lines keep their provenance as
constructors; renderLine below recovers the exact text the source prints.
Fixture calls and the start of a body are events that print nothing. -/
inductive Event where
  | suiteHeader (suite : String)
  | skipLine (test : String)
  | runningLine (test : String) (rep : Option Int)
  | bodyLine (test : String) (rep : Int) (text : String)
  | timeoutLine (test : String) (ms : Int)
  | unexpectedThrownLine (test : String) (what : String)
  | unexpectedTypeLine (test : String) (what : String)
  | unexpectedUnknownLine (test : String)
  | notThrownLine (typeName : String) (test : String)
  | beforeAllCall (suite : String)
  | afterAllCall (suite : String)
  | beforeEachCall (suite : String)
  | afterEachCall (suite : String)
  | bodyStart (test : String) (rep : Int)
  | blankLine
deriving DecidableEq, Repr

/-- Exact text a console event prints, taken verbatim from TestFramework.cpp
and the ASSERT macros; fixture calls and body starts print nothing. -/
def renderLine : Event → Option String
  | .suiteHeader s => some ("Running Test Suite: " ++ s)
  | .skipLine t => some ("Skipping Disabled Test Case: " ++ t)
  | .runningLine t Option.none => some ("Running Test Case: " ++ t)
  | .runningLine t (Option.some r) =>
      some ("Running Test Case: " ++ t ++ " (Repetition " ++ toString r ++ ")")
  | .bodyLine _ _ s => some s
  | .timeoutLine t ms => some ("Test '" ++ t ++ "' timed out after " ++ toString ms ++ " ms")
  | .unexpectedThrownLine t w =>
      some ("Unexpected exception thrown in test '" ++ t ++ "': " ++ w)
  | .unexpectedTypeLine t w =>
      some ("Unexpected exception type in test '" ++ t ++ "': " ++ w)
  | .unexpectedUnknownLine t =>
      some ("Unexpected unknown exception thrown in test '" ++ t ++ "'")
  | .notThrownLine ty t =>
      some ("Expected exception of type '" ++ ty ++ "' was not thrown in test '" ++ t ++ "'")
  | .blankLine => some ""
  | _ => Option.none

/-- Console lines of a trace, in order. -/
def outputLines (tr : List Event) : List String :=
  tr.filterMap renderLine

/-- Mirror of the local `exceptionExpected = !testCase.expectedExceptionTypeName.empty()`. -/
def exceptionExpected (tc : TestCase) : Bool :=
  !(tc.expectedExceptionTypeName == "")

/-- Whether a catch clause ran: both the std::exception handler and the
catch-all set exceptionCaught. -/
def exceptionCaught (b : BodyBehavior) : Bool :=
  match b.thrown with
  | Thrown.none => false
  | Thrown.stdExc _ _ => true
  | Thrown.unknown => true

/-- Lines printed by the catch clauses of executeTest
(TestFramework.cpp lines 98-120). -/
def classifyEvents (tc : TestCase) (b : BodyBehavior) : List Event :=
  match b.thrown with
  | Thrown.none => []
  | Thrown.stdExc ty what =>
      if !(exceptionExpected tc) then [Event.unexpectedThrownLine tc.name what]
      else if ty ≠ tc.expectedExceptionTypeName then [Event.unexpectedTypeLine tc.name what]
      else []
  | Thrown.unknown =>
      if !(exceptionExpected tc) then [Event.unexpectedUnknownLine tc.name]
      else []

/-- Value of testPassed after executeTest alone: it starts true and each
catch print site sets it false. -/
def classifyPassed (tc : TestCase) (b : BodyBehavior) : Bool :=
  match b.thrown with
  | Thrown.none => true
  | Thrown.stdExc ty _ =>
      if !(exceptionExpected tc) then false
      else if ty ≠ tc.expectedExceptionTypeName then false
      else true
  | Thrown.unknown =>
      if !(exceptionExpected tc) then false
      else true

/-- The timed path is taken when timeout.count() > 0, and wait_for lapses
exactly when the body needs longer than the timeout. -/
def timedOut (tc : TestCase) (b : BodyBehavior) : Bool :=
  decide (0 < tc.timeout) && decide (tc.timeout < b.duration)

/-- Condition of the `exceptionExpected && !exceptionCaught` check at
TestFramework.cpp lines 137 and 247; by that point the body has completed
even on the timed path, because the future destructor joined it. -/
def missingExpected (tc : TestCase) (b : BodyBehavior) : Bool :=
  exceptionExpected tc && !(exceptionCaught b)

/-- Lines the body and its classifier produce: the body prints its own
lines, then the catch clauses print theirs. -/
def bodyEvents (tc : TestCase) (b : BodyBehavior) (rep : Int) : List Event :=
  (b.output.map (Event.bodyLine tc.name rep)) ++ classifyEvents tc b

/-- Overall pass flag of one task: testPassed is initialised true and set
false by the classifier print sites, the timeout branch, and the missing
expected exception check. -/
def taskPassed (tc : TestCase) (b : BodyBehavior) : Bool :=
  classifyPassed tc b && !(timedOut tc b) && !(missingExpected tc b)

/-- Trace of one task (the runTest closure, TestFramework.cpp lines 80-146,
and identically the sequential loop body, lines 190-256): BeforeEach when a
fixture exists, the Running Test Case line (with repetition suffix when
showRep), the body under the timeout policy, the missing-expected-exception
check, then AfterEach. -/
def taskEvents (suiteName : String) (hasFixture : Bool) (tc : TestCase)
    (rep : Int) (showRep : Bool) : List Event :=
  let b := tc.body rep
  (if hasFixture then [Event.beforeEachCall suiteName] else [])
  ++ [Event.runningLine tc.name (if showRep then Option.some rep else Option.none),
      Event.bodyStart tc.name rep]
  ++ (if timedOut tc b then [Event.timeoutLine tc.name tc.timeout] else [])
  ++ bodyEvents tc b rep
  ++ (if missingExpected tc b then
        [Event.notThrownLine tc.expectedExceptionTypeName tc.name] else [])
  ++ (if hasFixture then [Event.afterEachCall suiteName] else [])

/-- Integer range lo..hi inclusive, empty when hi < lo; models the C++
`for (int rep = lo; rep <= hi; ++rep)` loops. -/
def intRange (lo hi : Int) : List Int :=
  (List.range (hi + 1 - lo).toNat).map (fun i : Nat => lo + (i : Int))

/-- Clamped repetition count of the sequential loop
(`if (repetitions < 1) repetitions = 1`, lines 187-188). -/
def seqReps (tc : TestCase) : Int :=
  if tc.repetitions < 1 then 1 else tc.repetitions

/-- Sequential trace of one test case (lines 180-256): a disabled case
prints only the skip line; otherwise each repetition 1..seqReps runs in
order, with the repetition suffix shown when the clamped count exceeds 1. -/
def seqCaseEvents (suiteName : String) (hasFixture : Bool) (tc : TestCase) : List Event :=
  if tc.disabled then [Event.skipLine tc.name]
  else (intRange 1 (seqReps tc)).flatMap
    (fun rep => taskEvents suiteName hasFixture tc rep (decide (1 < seqReps tc)))

/-- Events printed before the mode branch: the suite header, then BeforeAll
when the fixture pointer is non-null (lines 28-32). -/
def suitePrefix (s : TestSuite) : List Event :=
  Event.suiteHeader s.name
    :: (if s.hasFixture then [Event.beforeAllCall s.name] else [])

/-- Events printed after the mode branch: AfterAll when the fixture exists,
then the blank line (lines 260-264). -/
def suiteSuffix (s : TestSuite) : List Event :=
  (if s.hasFixture then [Event.afterAllCall s.name] else []) ++ [Event.blankLine]

/-- Sequential run of one suite. -/
def runSuiteSequential (s : TestSuite) : List Event :=
  suitePrefix s
  ++ (s.testCases.flatMap (fun tc => seqCaseEvents s.name s.hasFixture tc))
  ++ suiteSuffix s

/-- Repetition indices enqueued for one case in concurrent mode
(lines 148-164): one task per index 1..repetitions when the case is
nondeterministic or repeats, otherwise a single task for index 1. -/
def enqueuedReps (tc : TestCase) : List Int :=
  if tc.isNondeterministic || decide (1 < tc.repetitions) then intRange 1 tc.repetitions
  else [1]

/-- Per-case streams of the concurrent mode: a disabled case contributes
its skip line as one stream printed by the main thread (lines 74-78); an
enabled case contributes one task trace per enqueued repetition. -/
def concCaseItems (suiteName : String) (hasFixture : Bool) (tc : TestCase) :
    List (List Event) :=
  if tc.disabled then [[Event.skipLine tc.name]]
  else (enqueuedReps tc).map
    (fun rep => taskEvents suiteName hasFixture tc rep (decide (1 < tc.repetitions)))

/-- All event streams of one suite in concurrent mode, in enqueue order. -/
def concItems (s : TestSuite) : List (List Event) :=
  s.testCases.flatMap (fun tc => concCaseItems s.name s.hasFixture tc)

/-- PickHead ls a ls2 holds when some stream of ls starts with a and ls2 is
ls with that head removed. -/
inductive PickHead {α : Type} : List (List α) → α → List (List α) → Prop where
  | here {a : α} {l : List α} {ls : List (List α)} : PickHead ((a :: l) :: ls) a (l :: ls)
  | there {b : List α} {a : α} {ls ls2 : List (List α)} :
      PickHead ls a ls2 → PickHead (b :: ls) a (b :: ls2)

/-- Interleaving ls m holds when m merges the streams of ls, keeping the
internal order of every stream and consuming all of them; it models the
worker pool running the enqueued closures in any order while each line is
printed atomically under the console mutex, and the shutdown-plus-join
barrier consuming every stream completely. -/
inductive Interleaving {α : Type} : List (List α) → List α → Prop where
  | nil {ls : List (List α)} : (∀ l ∈ ls, l = []) → Interleaving ls []
  | cons {ls ls2 : List (List α)} {a : α} {m : List α} :
      PickHead ls a ls2 → Interleaving ls2 m → Interleaving ls (a :: m)

/-- Concurrent run of one suite (lines 36-177): the suite header and
BeforeAll, then any interleaving of the skip lines and enqueued task
traces, then - after the pool is shut down and joined - AfterAll and the
blank line. -/
def ConcRunSuite (s : TestSuite) (tr : List Event) : Prop :=
  ∃ m : List Event, Interleaving (concItems s) m ∧
    tr = suitePrefix s ++ m ++ suiteSuffix s

/-- Worker pool size (lines 38-41): hardware_concurrency(), replaced by 2
only when it reports 0. -/
def poolSize (hardwareConcurrency : Nat) : Nat :=
  if hardwareConcurrency = 0 then 2 else hardwareConcurrency

/-- Sequential run of every registered suite in registration order
(the outer loop of TestRunner::run). -/
def runAllSequential (suites : List TestSuite) : List Event :=
  suites.flatMap runSuiteSequential

/-- Result of the demo driver (demo_main.cpp): run(bool) returns void, the
per-task testPassed flag is discarded, and main returns 0 unconditionally;
only the sequential pass is kept here as a function (the concurrent pass is
the relation ConcRunSuite and influences the exit code just as little). -/
structure DemoRun where
  firstRun : List Event
  exitCode : Int

/-- Mirror of main in demo_main.cpp: run every suite and return 0. -/
def demoMain (suites : List TestSuite) : DemoRun :=
  { firstRun := runAllSequential suites, exitCode := 0 }

/-- True on the timed-out report line. -/
def isTimeoutEvt : Event → Bool
  | .timeoutLine _ _ => true
  | _ => false

/-- True on a body invocation event. -/
def isBodyStartEvt : Event → Bool
  | .bodyStart _ _ => true
  | _ => false

/-- True on a Running Test Case line. -/
def isRunningEvt : Event → Bool
  | .runningLine _ _ => true
  | _ => false

/-- True on a BeforeAll or AfterAll call. -/
def isSuiteBracketEvt : Event → Bool
  | .beforeAllCall _ => true
  | .afterAllCall _ => true
  | _ => false

/-- True on any failure-classification line of the engine: the two
unexpected-exception variants, the unknown-exception line, and the
missing-expected-exception line. -/
def isClassifierFailureEvt : Event → Bool
  | .unexpectedThrownLine _ _ => true
  | .unexpectedTypeLine _ _ => true
  | .unexpectedUnknownLine _ => true
  | .notThrownLine _ _ => true
  | _ => false

/-- True on the exact-phrase unexpected-exception line. -/
def isUnexpectedThrownEvt : Event → Bool
  | .unexpectedThrownLine _ _ => true
  | _ => false

/-- True on the wrong-kind unexpected-exception-type line. -/
def isUnexpectedTypeEvt : Event → Bool
  | .unexpectedTypeLine _ _ => true
  | _ => false

/-- True on the unknown-exception line. -/
def isUnexpectedUnknownEvt : Event → Bool
  | .unexpectedUnknownLine _ => true
  | _ => false

/-- True on a body-printed line that starts with the assertion-failure
prefix of the ASSERT macros. -/
def isAssertFailedEvt : Event → Bool
  | .bodyLine _ _ s => List.isPrefixOf "Assertion failed".data s.data
  | _ => false

/-- Body that does nothing and returns at once. -/
def passingBody : BodyBehavior := { output := [], thrown := Thrown.none, duration := 0 }

/-- Timed case whose body needs 500ms against a 200ms bound and fails an
assertion when it finally gets there. -/
def c1Case : TestCase :=
  { name := "SlowAssert", timeout := 200,
    body := fun _ =>
      { output := ["Assertion failed in MyTests.cpp at line 7: false"],
        thrown := Thrown.none, duration := 500 } }

/-- Suite holding the slow asserting case. -/
def c1Suite : TestSuite := { name := "SuiteOne", testCases := [c1Case] }

/-- Suite with a fixture and one trivial case. -/
def c2Suite : TestSuite :=
  { name := "SuiteTwo", testCases := [{ name := "Simple", body := fun _ => passingBody }] }

/-- Case that declares an expected exception kind and raises exactly it. -/
def c3Case : TestCase :=
  { name := "ExpectedKind", expectedExceptionTypeName := "St13runtime_error",
    body := fun _ =>
      { output := [], thrown := Thrown.stdExc "St13runtime_error" "boom", duration := 0 } }

/-- Case that declares one expected kind and raises a different one. -/
def c4Case : TestCase :=
  { name := "WrongKind", expectedExceptionTypeName := "KindA",
    body := fun _ =>
      { output := [], thrown := Thrown.stdExc "KindB" "boom", duration := 0 } }

/-- Case that raises a std::exception while none is expected. -/
def c4CaseNoneExpected : TestCase :=
  { name := "NoneExpected",
    body := fun _ =>
      { output := [], thrown := Thrown.stdExc "KindB" "boom", duration := 0 } }

/-- Repeated case enqueued once per repetition in concurrent mode. -/
def c5Case : TestCase :=
  { name := "Repeated", repetitions := 3, body := fun _ => passingBody }

/-- Case that times out, used to show the demo driver still exits with 0. -/
def c6Case : TestCase :=
  { name := "TimesOut", timeout := 200,
    body := fun _ => { output := [], thrown := Thrown.none, duration := 500 } }

/-- Suite holding the timing-out case; no fixture, as in a minimal driver. -/
def c6Suite : TestSuite := { name := "SuiteSix", hasFixture := false, testCases := [c6Case] }

/-- Disabled case whose body would fail if it ever ran. -/
def c8Case : TestCase :=
  { name := "NeverRuns", disabled := true,
    body := fun _ =>
      { output := ["Assertion failed in MyTests.cpp at line 9: false"],
        thrown := Thrown.none, duration := 0 } }

/-- Case registered with a repetition count of zero, outside the declared
domain of repetitions greater or equal 1. -/
def c9Case : TestCase :=
  { name := "ZeroReps", repetitions := 0, body := fun _ => passingBody }

/-- Case expecting a kind but throwing a value not derived from
std::exception. -/
def c10Case : TestCase :=
  { name := "UnknownThrow", expectedExceptionTypeName := "KindA",
    body := fun _ => { output := [], thrown := Thrown.unknown, duration := 0 } }

/-- True on any event that can occur strictly between the suite brackets:
everything a task or a skip produces, and nothing else. -/
def isInnerEvt : Event → Bool
  | .skipLine _ => true
  | .runningLine _ _ => true
  | .bodyLine _ _ _ => true
  | .timeoutLine _ _ => true
  | .unexpectedThrownLine _ _ => true
  | .unexpectedTypeLine _ _ => true
  | .unexpectedUnknownLine _ => true
  | .notThrownLine _ _ => true
  | .beforeEachCall _ => true
  | .afterEachCall _ => true
  | .bodyStart _ _ => true
  | _ => false

/-- Shape of a suite trace required by claim C2: the header, then the
BeforeAll call, then a middle section free of suite brackets, then the
AfterAll call and the closing blank line. -/
def BracketedTrace (suiteName : String) (tr : List Event) : Prop :=
  ∃ mid : List Event,
    tr = Event.suiteHeader suiteName :: Event.beforeAllCall suiteName
           :: (mid ++ [Event.afterAllCall suiteName, Event.blankLine])
    ∧ ∀ e ∈ mid, isSuiteBracketEvt e = false

lemma mem_intRange {lo hi k : Int} : k ∈ intRange lo hi ↔ lo ≤ k ∧ k ≤ hi := by
  unfold intRange
  rw [List.mem_map]
  constructor
  · rintro ⟨i, hi2, rfl⟩
    rw [List.mem_range] at hi2
    omega
  · rintro ⟨h1, h2⟩
    refine ⟨(k - lo).toNat, ?_, ?_⟩
    · rw [List.mem_range]; omega
    · omega

lemma nodup_intRange (lo hi : Int) : (intRange lo hi).Nodup := by
  unfold intRange
  refine List.Nodup.map ?_ (List.nodup_range _)
  intro a b hab
  have h2 : lo + (a : Int) = lo + (b : Int) := hab
  omega

lemma length_intRange (lo hi : Int) : (intRange lo hi).length = (hi + 1 - lo).toNat := by
  unfold intRange
  rw [List.length_map, List.length_range]

lemma exceptionExpected_of_ne {tc : TestCase} (h : tc.expectedExceptionTypeName ≠ "") :
    exceptionExpected tc = true := by
  unfold exceptionExpected
  simp [h]

lemma classifyEvents_eq_none {b : BodyBehavior} (tc : TestCase) (h : b.thrown = Thrown.none) :
    classifyEvents tc b = [] := by
  unfold classifyEvents
  rw [h]

lemma classifyEvents_eq_stdExc {b : BodyBehavior} (tc : TestCase) (ty w : String)
    (h : b.thrown = Thrown.stdExc ty w) :
    classifyEvents tc b =
      if !(exceptionExpected tc) then [Event.unexpectedThrownLine tc.name w]
      else if ty ≠ tc.expectedExceptionTypeName then [Event.unexpectedTypeLine tc.name w]
      else [] := by
  unfold classifyEvents
  rw [h]

lemma classifyEvents_eq_unknown {b : BodyBehavior} (tc : TestCase) (h : b.thrown = Thrown.unknown) :
    classifyEvents tc b =
      if !(exceptionExpected tc) then [Event.unexpectedUnknownLine tc.name] else [] := by
  unfold classifyEvents
  rw [h]

lemma classifyPassed_eq_stdExc {b : BodyBehavior} (tc : TestCase) (ty w : String)
    (h : b.thrown = Thrown.stdExc ty w) :
    classifyPassed tc b =
      if !(exceptionExpected tc) then false
      else if ty ≠ tc.expectedExceptionTypeName then false
      else true := by
  unfold classifyPassed
  rw [h]

lemma classifyPassed_eq_unknown {b : BodyBehavior} (tc : TestCase) (h : b.thrown = Thrown.unknown) :
    classifyPassed tc b = if !(exceptionExpected tc) then false else true := by
  unfold classifyPassed
  rw [h]

lemma exceptionCaught_stdExc {b : BodyBehavior} {ty w : String}
    (h : b.thrown = Thrown.stdExc ty w) : exceptionCaught b = true := by
  unfold exceptionCaught
  rw [h]

lemma exceptionCaught_unknown {b : BodyBehavior} (h : b.thrown = Thrown.unknown) :
    exceptionCaught b = true := by
  unfold exceptionCaught
  rw [h]

lemma missingExpected_of_caught {tc : TestCase} {b : BodyBehavior}
    (h : exceptionCaught b = true) : missingExpected tc b = false := by
  unfold missingExpected
  rw [h]
  simp

lemma countP_classify_zero (p : Event → Bool) (tc : TestCase) (b : BodyBehavior)
    (h1 : ∀ t w, p (Event.unexpectedThrownLine t w) = false)
    (h2 : ∀ t w, p (Event.unexpectedTypeLine t w) = false)
    (h3 : ∀ t, p (Event.unexpectedUnknownLine t) = false) :
    List.countP p (classifyEvents tc b) = 0 := by
  rcases hb : b.thrown with _ | ⟨ty, w⟩ | _
  · rw [classifyEvents_eq_none tc hb]
    rfl
  · rw [classifyEvents_eq_stdExc tc ty w hb]
    split_ifs <;> simp [h1, h2]
  · rw [classifyEvents_eq_unknown tc hb]
    split_ifs <;> simp [h3]

lemma countP_taskEvents (p : Event → Bool) (sn : String) (f : Bool) (tc : TestCase)
    (rep : Int) (sr : Bool)
    (hbe : p (Event.beforeEachCall sn) = false)
    (hae : p (Event.afterEachCall sn) = false)
    (hrun : ∀ r, p (Event.runningLine tc.name r) = false)
    (hstart : p (Event.bodyStart tc.name rep) = false)
    (hbody : ∀ s, p (Event.bodyLine tc.name rep s) = false) :
    List.countP p (taskEvents sn f tc rep sr)
      = (if timedOut tc (tc.body rep)
           then (if p (Event.timeoutLine tc.name tc.timeout) then 1 else 0) else 0)
        + List.countP p (classifyEvents tc (tc.body rep))
        + (if missingExpected tc (tc.body rep)
             then (if p (Event.notThrownLine tc.expectedExceptionTypeName tc.name) then 1 else 0)
             else 0) := by
  have hmap : List.countP p ((tc.body rep).output.map (Event.bodyLine tc.name rep)) = 0 := by
    rw [List.countP_map]
    exact List.countP_eq_zero.mpr (fun s _ => by simp [Function.comp, hbody s])
  unfold taskEvents bodyEvents
  cases f <;> cases htd : timedOut tc (tc.body rep) <;>
    cases hme : missingExpected tc (tc.body rep) <;>
      simp [htd, hme, List.countP_append, List.countP_cons, hbe, hae, hrun, hstart, hmap] <;>
        omega

lemma exceptionExpected_of_eq {tc : TestCase} (h : tc.expectedExceptionTypeName = "") :
    exceptionExpected tc = false := by
  unfold exceptionExpected
  simp [h]

lemma countP_taskEvents_classify (p : Event → Bool) (sn : String) (f : Bool) (tc : TestCase)
    (rep : Int) (sr : Bool)
    (hbe : p (Event.beforeEachCall sn) = false)
    (hae : p (Event.afterEachCall sn) = false)
    (hrun : ∀ r, p (Event.runningLine tc.name r) = false)
    (hstart : p (Event.bodyStart tc.name rep) = false)
    (hbody : ∀ s, p (Event.bodyLine tc.name rep s) = false)
    (htl : p (Event.timeoutLine tc.name tc.timeout) = false)
    (hnt : missingExpected tc (tc.body rep) = false) :
    List.countP p (taskEvents sn f tc rep sr)
      = List.countP p (classifyEvents tc (tc.body rep)) := by
  rw [countP_taskEvents p sn f tc rep sr hbe hae hrun hstart hbody, hnt, htl]
  simp

/-- Claim C7 counterexample: on hardware reporting exactly one execution
unit the pool size is 1, below the minimum of 2 the claim states. -/
theorem pool_size_counterexample : poolSize 1 = 1 ∧ ¬ (2 ≤ poolSize 1) := by
  decide

/-- Claim C7 (amended): the pool size equals the reported hardware
execution unit count whenever that count is at least 1, and the fallback
of 2 applies only to a report of 0; hence the size can be 1 and the
spec-stated minimum of 2 only holds for the unknown-hardware case. -/
theorem pool_size_value (hc : Nat) :
    1 ≤ poolSize hc ∧ (hc = 0 → poolSize hc = 2) ∧ (1 ≤ hc → poolSize hc = hc) := by
  unfold poolSize
  by_cases h : hc = 0
  · simp [h]
  · rw [if_neg h]
    omega

theorem pool_size_value_witness :
    1 ≤ poolSize 1 ∧ (1 = 0 → poolSize 1 = 2) ∧ (1 ≤ 1 → poolSize 1 = 1) :=
  pool_size_value 1

/-- Claim C6 counterexample: a registered suite whose only task is reported
timed-out (a failing status) still leaves the demo driver exit code at 0,
while the claim requires it to be nonzero. -/
theorem demo_exit_code_counterexample :
    List.countP isTimeoutEvt (demoMain [c6Suite]).firstRun = 1
    ∧ (demoMain [c6Suite]).exitCode = 0 := by
  decide

/-- Claim C6 (amended): running the engine runs every registered suite once
in registration order, but produces no aggregate pass or fail signal: run
returns void, the per-task testPassed flag is discarded, and the process
exit code of the demo driver is 0 no matter what any task reported. -/
theorem demo_exit_code_constant (suites other : List TestSuite) :
    (demoMain suites).firstRun = suites.flatMap runSuiteSequential
    ∧ (demoMain suites).exitCode = 0
    ∧ (demoMain suites).exitCode = (demoMain other).exitCode :=
  ⟨rfl, rfl, rfl⟩

/-- Claim C8: a disabled test case produces no task in either mode: its
sequential trace is exactly the one skip line, its concurrent contribution
is exactly the one-line skip stream, and no Running Test Case line, body
invocation, or fixture BeforeEach or AfterEach call occurs for it. -/
theorem disabled_case_only_skip_line (sn : String) (f : Bool) (tc : TestCase)
    (h : tc.disabled = true) :
    seqCaseEvents sn f tc = [Event.skipLine tc.name]
    ∧ concCaseItems sn f tc = [[Event.skipLine tc.name]]
    ∧ List.countP isRunningEvt (seqCaseEvents sn f tc) = 0
    ∧ List.countP isBodyStartEvt (seqCaseEvents sn f tc) = 0 := by
  refine ⟨?_, ?_, ?_, ?_⟩ <;> simp [seqCaseEvents, concCaseItems, h, List.countP_cons,
    isRunningEvt, isBodyStartEvt]

lemma countP_bodyStart_taskEvents (sn : String) (f : Bool) (tc : TestCase) (rep : Int)
    (sr : Bool) : List.countP isBodyStartEvt (taskEvents sn f tc rep sr) = 1 := by
  have hmap : List.countP isBodyStartEvt
      ((tc.body rep).output.map (Event.bodyLine tc.name rep)) = 0 := by
    rw [List.countP_map]
    exact List.countP_eq_zero.mpr (fun s _ => by simp [Function.comp, isBodyStartEvt])
  have hcl : List.countP isBodyStartEvt (classifyEvents tc (tc.body rep)) = 0 :=
    countP_classify_zero _ _ _ (fun t w => rfl) (fun t w => rfl) (fun t => rfl)
  unfold taskEvents bodyEvents
  cases f <;> cases htd : timedOut tc (tc.body rep) <;>
    cases hme : missingExpected tc (tc.body rep) <;>
      simp [htd, hme, List.countP_append, List.countP_cons, hmap, hcl, isBodyStartEvt]

lemma countP_bodyStart_flatMap (sn : String) (f : Bool) (tc : TestCase) (sr : Bool)
    (reps : List Int) :
    List.countP isBodyStartEvt (reps.flatMap (fun rep => taskEvents sn f tc rep sr))
      = reps.length := by
  induction reps with
  | nil => rfl
  | cons r rs ih =>
      rw [List.flatMap_cons, List.countP_append, ih, countP_bodyStart_taskEvents]
      simp [Nat.add_comm]

/-- Claim C5: for a non-disabled case in concurrent mode, when the case
repeats or is nondeterministic exactly one closure is enqueued per
repetition index 1..repetitions (the enqueued index list has no duplicates
and contains exactly that range), and otherwise exactly one closure is
enqueued, for index 1; the concurrent stream list is exactly one task
trace per enqueued index. -/
theorem concurrent_enqueue_fanout (sn : String) (f : Bool) (tc : TestCase)
    (h : tc.disabled = false) :
    ((tc.isNondeterministic = true ∨ 1 < tc.repetitions) →
        (enqueuedReps tc).Nodup
        ∧ ∀ k : Int, k ∈ enqueuedReps tc ↔ (1 ≤ k ∧ k ≤ tc.repetitions))
    ∧ (tc.isNondeterministic = false → tc.repetitions ≤ 1 → enqueuedReps tc = [1])
    ∧ concCaseItems sn f tc
        = (enqueuedReps tc).map
            (fun rep => taskEvents sn f tc rep (decide (1 < tc.repetitions))) := by
  refine ⟨?_, ?_, ?_⟩
  · intro hcond
    have hb : (tc.isNondeterministic || decide (1 < tc.repetitions)) = true := by
      rcases hcond with h1 | h1 <;> simp [h1]
    simp only [enqueuedReps, hb, if_true]
    exact ⟨nodup_intRange 1 tc.repetitions, fun k => mem_intRange⟩
  · intro h1 h2
    have hb : (tc.isNondeterministic || decide (1 < tc.repetitions)) = false := by
      simp [h1]
      omega
    simp [enqueuedReps, hb]
  · simp [concCaseItems, h]

theorem concurrent_enqueue_fanout_witness :
    c5Case.disabled = false
    ∧ ((enqueuedReps c5Case).Nodup
        ∧ ∀ k : Int, k ∈ enqueuedReps c5Case ↔ (1 ≤ k ∧ k ≤ c5Case.repetitions)) :=
  ⟨rfl, (concurrent_enqueue_fanout "SuiteFive" true c5Case rfl).1 (Or.inr (by decide))⟩

/-- Claim C9: a non-disabled case runs max(repetitions, 1) times in
sequential mode (one body invocation per clamped repetition); in
particular a repetition count below 1 still yields exactly one execution,
with repetition index 1 and no repetition suffix. -/
theorem sequential_runs_clamped_repetitions (sn : String) (f : Bool) (tc : TestCase)
    (h : tc.disabled = false) :
    List.countP isBodyStartEvt (seqCaseEvents sn f tc) = (max tc.repetitions 1).toNat
    ∧ (tc.repetitions < 1 → seqCaseEvents sn f tc = taskEvents sn f tc 1 false) := by
  constructor
  · unfold seqCaseEvents
    rw [if_neg (by simp [h])]
    rw [countP_bodyStart_flatMap, length_intRange]
    unfold seqReps
    split_ifs <;> omega
  · intro hlt
    have hs : seqReps tc = 1 := by
      unfold seqReps
      rw [if_pos hlt]
    unfold seqCaseEvents
    rw [if_neg (by simp [h]), hs]
    rw [show intRange 1 1 = [1] from by decide]
    simp

theorem sequential_runs_clamped_repetitions_witness :
    c9Case.disabled = false
    ∧ (List.countP isBodyStartEvt (seqCaseEvents "SuiteNine" true c9Case)
          = (max c9Case.repetitions 1).toNat
        ∧ (c9Case.repetitions < 1 →
            seqCaseEvents "SuiteNine" true c9Case = taskEvents "SuiteNine" true c9Case 1 false)) :=
  ⟨rfl, sequential_runs_clamped_repetitions "SuiteNine" true c9Case rfl⟩

theorem disabled_case_only_skip_line_witness :
    c8Case.disabled = true
    ∧ (seqCaseEvents "SuiteEight" true c8Case = [Event.skipLine c8Case.name]
        ∧ concCaseItems "SuiteEight" true c8Case = [[Event.skipLine c8Case.name]]
        ∧ List.countP isRunningEvt (seqCaseEvents "SuiteEight" true c8Case) = 0
        ∧ List.countP isBodyStartEvt (seqCaseEvents "SuiteEight" true c8Case) = 0) :=
  ⟨rfl, disabled_case_only_skip_line "SuiteEight" true c8Case rfl⟩

/-- Claim C3: a task that raises exactly its declared expected exception
kind is treated as passed: the classifier prints nothing, no
failure-classification line of any sort occurs in the task trace, and
whenever the body also completed within its bound the task pass flag
stays true. -/
theorem matching_expected_kind_reports_nothing (sn : String) (f : Bool) (tc : TestCase)
    (rep : Int) (sr : Bool) (w : String)
    (hexp : tc.expectedExceptionTypeName ≠ "")
    (hthrown : (tc.body rep).thrown = Thrown.stdExc tc.expectedExceptionTypeName w) :
    classifyEvents tc (tc.body rep) = []
    ∧ List.countP isClassifierFailureEvt (taskEvents sn f tc rep sr) = 0
    ∧ (timedOut tc (tc.body rep) = false → taskPassed tc (tc.body rep) = true) := by
  have hee := exceptionExpected_of_ne hexp
  have hme : missingExpected tc (tc.body rep) = false :=
    missingExpected_of_caught (exceptionCaught_stdExc hthrown)
  have hcl : classifyEvents tc (tc.body rep) = [] := by
    rw [classifyEvents_eq_stdExc tc _ w hthrown, hee]
    simp
  refine ⟨hcl, ?_, ?_⟩
  · rw [countP_taskEvents_classify isClassifierFailureEvt sn f tc rep sr rfl rfl
      (fun r => rfl) rfl (fun s => rfl) rfl hme, hcl]
    rfl
  · intro htd
    unfold taskPassed
    rw [classifyPassed_eq_stdExc tc _ w hthrown, hee, htd, hme]
    simp

theorem matching_expected_kind_witness :
    c3Case.expectedExceptionTypeName ≠ ""
    ∧ (c3Case.body 1).thrown = Thrown.stdExc c3Case.expectedExceptionTypeName "boom"
    ∧ (classifyEvents c3Case (c3Case.body 1) = []
        ∧ List.countP isClassifierFailureEvt (taskEvents "SuiteThree" true c3Case 1 false) = 0
        ∧ (timedOut c3Case (c3Case.body 1) = false → taskPassed c3Case (c3Case.body 1) = true)) :=
  ⟨by decide, rfl,
    matching_expected_kind_reports_nothing "SuiteThree" true c3Case 1 false "boom"
      (by decide) rfl⟩

/-- Claim C10: a task that declares an expected kind and throws a value not
derived from std::exception lands in the catch-all, which records the
exception as caught but prints nothing when a kind was expected; no
failure-classification line occurs, the missing-expected-exception line is
suppressed, and if the body finished within its bound the task counts as
passed, whatever was thrown. -/
theorem unknown_throw_satisfies_expectation (sn : String) (f : Bool) (tc : TestCase)
    (rep : Int) (sr : Bool)
    (hexp : tc.expectedExceptionTypeName ≠ "")
    (hthrown : (tc.body rep).thrown = Thrown.unknown) :
    classifyEvents tc (tc.body rep) = []
    ∧ List.countP isClassifierFailureEvt (taskEvents sn f tc rep sr) = 0
    ∧ missingExpected tc (tc.body rep) = false
    ∧ (timedOut tc (tc.body rep) = false → taskPassed tc (tc.body rep) = true) := by
  have hee := exceptionExpected_of_ne hexp
  have hme : missingExpected tc (tc.body rep) = false :=
    missingExpected_of_caught (exceptionCaught_unknown hthrown)
  have hcl : classifyEvents tc (tc.body rep) = [] := by
    rw [classifyEvents_eq_unknown tc hthrown, hee]
    simp
  refine ⟨hcl, ?_, hme, ?_⟩
  · rw [countP_taskEvents_classify isClassifierFailureEvt sn f tc rep sr rfl rfl
      (fun r => rfl) rfl (fun s => rfl) rfl hme, hcl]
    rfl
  · intro htd
    unfold taskPassed
    rw [classifyPassed_eq_unknown tc hthrown, hee, htd, hme]
    simp

theorem unknown_throw_witness :
    c10Case.expectedExceptionTypeName ≠ ""
    ∧ (c10Case.body 1).thrown = Thrown.unknown
    ∧ (classifyEvents c10Case (c10Case.body 1) = []
        ∧ List.countP isClassifierFailureEvt (taskEvents "SuiteTen" true c10Case 1 false) = 0
        ∧ missingExpected c10Case (c10Case.body 1) = false
        ∧ (timedOut c10Case (c10Case.body 1) = false → taskPassed c10Case (c10Case.body 1) = true)) :=
  ⟨by decide, rfl,
    unknown_throw_satisfies_expectation "SuiteTen" true c10Case 1 false (by decide) rfl⟩

/-- Claim C4 counterexample: a case expecting kind KindA whose body throws
kind KindB produces zero lines of the exact Unexpected-exception-thrown
phrase: the engine prints the distinct Unexpected exception type line
instead, and its detail message carries only the what() text, not the two
kinds. -/
theorem wrong_kind_line_counterexample :
    List.countP isUnexpectedThrownEvt (taskEvents "SuiteFour" true c4Case 1 false) = 0
    ∧ List.countP isUnexpectedTypeEvt (taskEvents "SuiteFour" true c4Case 1 false) = 1
    ∧ Event.unexpectedTypeLine "WrongKind" "boom" ∈ taskEvents "SuiteFour" true c4Case 1 false
    ∧ renderLine (Event.unexpectedTypeLine "WrongKind" "boom")
        = some "Unexpected exception type in test 'WrongKind': boom" := by
  decide

/-- Claim C4 (amended): a body that raises a std::exception of a kind other
than the declared expected kind yields exactly one Unexpected exception
type line whose detail is only the raised what() message; a std::exception
raised when no kind is expected yields exactly one Unexpected exception
thrown line; a non-std value raised when no kind is expected yields exactly
one Unexpected unknown exception line; in each case exactly one
failure-classification line occurs for the task. -/
theorem exception_failure_line_shapes (sn : String) (f : Bool) (tc : TestCase)
    (rep : Int) (sr : Bool) :
    (∀ ty w, tc.expectedExceptionTypeName ≠ "" →
        (tc.body rep).thrown = Thrown.stdExc ty w → ty ≠ tc.expectedExceptionTypeName →
        classifyEvents tc (tc.body rep) = [Event.unexpectedTypeLine tc.name w]
        ∧ List.countP isUnexpectedTypeEvt (taskEvents sn f tc rep sr) = 1
        ∧ List.countP isUnexpectedThrownEvt (taskEvents sn f tc rep sr) = 0
        ∧ List.countP isClassifierFailureEvt (taskEvents sn f tc rep sr) = 1)
    ∧ (∀ ty w, tc.expectedExceptionTypeName = "" →
        (tc.body rep).thrown = Thrown.stdExc ty w →
        classifyEvents tc (tc.body rep) = [Event.unexpectedThrownLine tc.name w]
        ∧ List.countP isUnexpectedThrownEvt (taskEvents sn f tc rep sr) = 1
        ∧ List.countP isClassifierFailureEvt (taskEvents sn f tc rep sr) = 1)
    ∧ (tc.expectedExceptionTypeName = "" → (tc.body rep).thrown = Thrown.unknown →
        classifyEvents tc (tc.body rep) = [Event.unexpectedUnknownLine tc.name]
        ∧ List.countP isUnexpectedUnknownEvt (taskEvents sn f tc rep sr) = 1
        ∧ List.countP isClassifierFailureEvt (taskEvents sn f tc rep sr) = 1) := by
  refine ⟨?_, ?_, ?_⟩
  · intro ty w hexp hthrown hty
    have hee := exceptionExpected_of_ne hexp
    have hme : missingExpected tc (tc.body rep) = false :=
      missingExpected_of_caught (exceptionCaught_stdExc hthrown)
    have hcl : classifyEvents tc (tc.body rep) = [Event.unexpectedTypeLine tc.name w] := by
      rw [classifyEvents_eq_stdExc tc ty w hthrown, hee]
      simp [hty]
    refine ⟨hcl, ?_, ?_, ?_⟩ <;>
      rw [countP_taskEvents_classify _ sn f tc rep sr rfl rfl
        (fun r => rfl) rfl (fun s => rfl) rfl hme, hcl] <;> rfl
  · intro ty w hexp hthrown
    have hee := exceptionExpected_of_eq hexp
    have hme : missingExpected tc (tc.body rep) = false :=
      missingExpected_of_caught (exceptionCaught_stdExc hthrown)
    have hcl : classifyEvents tc (tc.body rep) = [Event.unexpectedThrownLine tc.name w] := by
      rw [classifyEvents_eq_stdExc tc ty w hthrown, hee]
      simp
    refine ⟨hcl, ?_, ?_⟩ <;>
      rw [countP_taskEvents_classify _ sn f tc rep sr rfl rfl
        (fun r => rfl) rfl (fun s => rfl) rfl hme, hcl] <;> rfl
  · intro hexp hthrown
    have hee := exceptionExpected_of_eq hexp
    have hme : missingExpected tc (tc.body rep) = false :=
      missingExpected_of_caught (exceptionCaught_unknown hthrown)
    have hcl : classifyEvents tc (tc.body rep) = [Event.unexpectedUnknownLine tc.name] := by
      rw [classifyEvents_eq_unknown tc hthrown, hee]
      simp
    refine ⟨hcl, ?_, ?_⟩ <;>
      rw [countP_taskEvents_classify _ sn f tc rep sr rfl rfl
        (fun r => rfl) rfl (fun s => rfl) rfl hme, hcl] <;> rfl

theorem exception_failure_line_witness :
    c4Case.expectedExceptionTypeName ≠ ""
    ∧ (c4Case.body 1).thrown = Thrown.stdExc "KindB" "boom"
    ∧ "KindB" ≠ c4Case.expectedExceptionTypeName
    ∧ (classifyEvents c4Case (c4Case.body 1) = [Event.unexpectedTypeLine c4Case.name "boom"]
        ∧ List.countP isUnexpectedTypeEvt (taskEvents "SuiteFour" true c4Case 1 false) = 1
        ∧ List.countP isUnexpectedThrownEvt (taskEvents "SuiteFour" true c4Case 1 false) = 0
        ∧ List.countP isClassifierFailureEvt (taskEvents "SuiteFour" true c4Case 1 false) = 1) :=
  ⟨by decide, rfl, by decide,
    (exception_failure_line_shapes "SuiteFour" true c4Case 1 false).1 "KindB" "boom"
      (by decide) rfl (by decide)⟩

/-- Claim C1 counterexample: for a task with timeout 200 whose body needs
500ms and ends in a failing assertion, the sequential run contains the one
timed-out line with the bound, but an Assertion failed line from that body
also appears, because the engine waits for the abandoned body (the async
future destructor blocks) and the ASSERT macros print straight to the
console. -/
theorem timed_out_body_assert_counterexample :
    List.countP isTimeoutEvt (runSuiteSequential c1Suite) = 1
    ∧ List.countP isAssertFailedEvt (runSuiteSequential c1Suite) = 1
    ∧ "Test 'SlowAssert' timed out after 200 ms" ∈ outputLines (runSuiteSequential c1Suite)
    ∧ "Assertion failed in MyTests.cpp at line 7: false"
        ∈ outputLines (runSuiteSequential c1Suite) := by
  decide

/-- Claim C1 (amended): a task whose body overruns its positive timeout
yields exactly one timed-out line with the configured bound and is marked
failed, but the body is not discarded in effect: every line the body
prints, assertion failures included, still occurs in that task trace. -/
theorem timeout_line_once_and_body_lines_survive (sn : String) (f : Bool) (tc : TestCase)
    (rep : Int) (sr : Bool)
    (h1 : 0 < tc.timeout) (h2 : tc.timeout < (tc.body rep).duration) :
    List.countP isTimeoutEvt (taskEvents sn f tc rep sr) = 1
    ∧ taskPassed tc (tc.body rep) = false
    ∧ ∀ s ∈ (tc.body rep).output, Event.bodyLine tc.name rep s ∈ taskEvents sn f tc rep sr := by
  have htd : timedOut tc (tc.body rep) = true := by
    unfold timedOut
    simp [h1, h2]
  refine ⟨?_, ?_, ?_⟩
  · rw [countP_taskEvents isTimeoutEvt sn f tc rep sr rfl rfl (fun r => rfl) rfl
      (fun s => rfl), htd,
      countP_classify_zero isTimeoutEvt tc _ (fun t w => rfl) (fun t w => rfl) (fun t => rfl)]
    simp [isTimeoutEvt]
  · unfold taskPassed
    rw [htd]
    simp
  · intro s hs
    have hm : Event.bodyLine tc.name rep s
        ∈ (tc.body rep).output.map (Event.bodyLine tc.name rep) :=
      List.mem_map_of_mem _ hs
    simp only [taskEvents, bodyEvents, List.mem_append]
    tauto

theorem timeout_line_once_witness :
    0 < c1Case.timeout
    ∧ c1Case.timeout < (c1Case.body 1).duration
    ∧ (List.countP isTimeoutEvt (taskEvents "SuiteOne" true c1Case 1 false) = 1
        ∧ taskPassed c1Case (c1Case.body 1) = false
        ∧ ∀ s ∈ (c1Case.body 1).output,
            Event.bodyLine c1Case.name 1 s ∈ taskEvents "SuiteOne" true c1Case 1 false) :=
  ⟨by decide, by decide,
    timeout_line_once_and_body_lines_survive "SuiteOne" true c1Case 1 false
      (by decide) (by decide)⟩

lemma forall_mem_ite_single {P : Event → Prop} {c : Prop} [Decidable c] {x : Event}
    (hx : P x) : ∀ e ∈ (if c then [x] else []), P e := by
  intro e he
  rw [List.mem_ite_nil_right] at he
  rcases he with ⟨_, he⟩
  rw [List.mem_singleton] at he
  subst he
  exact hx

lemma classifyEvents_inner (tc : TestCase) (b : BodyBehavior) :
    ∀ e ∈ classifyEvents tc b, isInnerEvt e = true := by
  intro e he
  rcases hb : b.thrown with _ | ⟨ty, w⟩ | _
  · rw [classifyEvents_eq_none tc hb] at he
    exact absurd he (List.not_mem_nil e)
  · rw [classifyEvents_eq_stdExc tc ty w hb] at he
    split_ifs at he <;>
      first
        | exact absurd he (List.not_mem_nil e)
        | (rw [List.mem_singleton] at he; subst he; rfl)
  · rw [classifyEvents_eq_unknown tc hb] at he
    split_ifs at he <;>
      first
        | exact absurd he (List.not_mem_nil e)
        | (rw [List.mem_singleton] at he; subst he; rfl)

lemma taskEvents_inner (sn : String) (f : Bool) (tc : TestCase) (rep : Int) (sr : Bool) :
    ∀ e ∈ taskEvents sn f tc rep sr, isInnerEvt e = true := by
  simp only [taskEvents, bodyEvents]
  refine List.forall_mem_append.mpr ⟨List.forall_mem_append.mpr ⟨List.forall_mem_append.mpr
    ⟨List.forall_mem_append.mpr ⟨List.forall_mem_append.mpr ⟨?_, ?_⟩, ?_⟩, ?_⟩, ?_⟩, ?_⟩
  · exact forall_mem_ite_single rfl
  · intro e he
    rcases List.mem_cons.mp he with rfl | he2
    · rfl
    · rcases List.mem_cons.mp he2 with rfl | he3
      · rfl
      · exact absurd he3 (List.not_mem_nil e)
  · exact forall_mem_ite_single rfl
  · refine List.forall_mem_append.mpr ⟨?_, classifyEvents_inner tc _⟩
    intro e he
    rcases List.mem_map.mp he with ⟨s, _, rfl⟩
    rfl
  · exact forall_mem_ite_single rfl
  · exact forall_mem_ite_single rfl

lemma seqCaseEvents_inner (sn : String) (f : Bool) (tc : TestCase) :
    ∀ e ∈ seqCaseEvents sn f tc, isInnerEvt e = true := by
  intro e he
  unfold seqCaseEvents at he
  split_ifs at he
  · rw [List.mem_singleton] at he
    subst he
    rfl
  · rcases List.mem_flatMap.mp he with ⟨rep, _, hmem⟩
    exact taskEvents_inner sn f tc rep _ e hmem

lemma concCaseItems_inner (sn : String) (f : Bool) (tc : TestCase) :
    ∀ l ∈ concCaseItems sn f tc, ∀ e ∈ l, isInnerEvt e = true := by
  intro l hl e he
  unfold concCaseItems at hl
  split_ifs at hl
  · rw [List.mem_singleton] at hl
    subst hl
    rw [List.mem_singleton] at he
    subst he
    rfl
  · rcases List.mem_map.mp hl with ⟨rep, _, rfl⟩
    exact taskEvents_inner sn f tc rep _ e he

lemma concItems_inner (s : TestSuite) :
    ∀ l ∈ concItems s, ∀ e ∈ l, isInnerEvt e = true := by
  intro l hl
  rcases List.mem_flatMap.mp hl with ⟨tc, _, hmem⟩
  exact concCaseItems_inner s.name s.hasFixture tc l hmem

lemma inner_not_bracket {e : Event} (h : isInnerEvt e = true) :
    isSuiteBracketEvt e = false := by
  cases e <;> simp_all [isInnerEvt, isSuiteBracketEvt]

lemma pickHead_mem {α : Type} {ls ls2 : List (List α)} {a : α}
    (h : PickHead ls a ls2) : ∃ l ∈ ls, a ∈ l := by
  induction h with
  | here => exact ⟨_, List.mem_cons_self _ _, List.mem_cons_self _ _⟩
  | there _ ih =>
      rcases ih with ⟨l, hl, hal⟩
      exact ⟨l, List.mem_cons_of_mem _ hl, hal⟩

lemma pickHead_tail_mem {α : Type} {ls ls2 : List (List α)} {a : α}
    (h : PickHead ls a ls2) : ∀ l2 ∈ ls2, ∀ b ∈ l2, ∃ l ∈ ls, b ∈ l := by
  induction h with
  | here =>
      intro l2 hl2 b hb
      rcases List.mem_cons.mp hl2 with rfl | h2
      · exact ⟨_, List.mem_cons_self _ _, List.mem_cons_of_mem _ hb⟩
      · exact ⟨l2, List.mem_cons_of_mem _ h2, hb⟩
  | there _ ih =>
      intro l2 hl2 b hb
      rcases List.mem_cons.mp hl2 with rfl | h2
      · exact ⟨l2, List.mem_cons_self _ _, hb⟩
      · rcases ih l2 h2 b hb with ⟨l, hl, hbl⟩
        exact ⟨l, List.mem_cons_of_mem _ hl, hbl⟩

lemma interleaving_mem {α : Type} {ls : List (List α)} {m : List α}
    (h : Interleaving ls m) : ∀ a ∈ m, ∃ l ∈ ls, a ∈ l := by
  induction h with
  | nil _ =>
      intro a ha
      exact absurd ha (List.not_mem_nil a)
  | cons hp _ ih =>
      intro x hx
      rcases List.mem_cons.mp hx with rfl | hx2
      · exact pickHead_mem hp
      · rcases ih x hx2 with ⟨l, hl, hxl⟩
        exact pickHead_tail_mem hp l hl x hxl

lemma interleaving_cons_nil {α : Type} {ls : List (List α)} {m : List α}
    (h : Interleaving ls m) : Interleaving ([] :: ls) m := by
  induction h with
  | nil h2 =>
      refine Interleaving.nil ?_
      intro l hl
      rcases List.mem_cons.mp hl with rfl | hl2
      · rfl
      · exact h2 l hl2
  | cons hp _ ih => exact Interleaving.cons (PickHead.there hp) ih

lemma interleaving_flatten {α : Type} (ls : List (List α)) : Interleaving ls ls.flatten := by
  induction ls with
  | nil =>
      refine Interleaving.nil ?_
      intro l hl
      exact absurd hl (List.not_mem_nil l)
  | cons l ls ih =>
      induction l with
      | nil =>
          rw [List.flatten_cons, List.nil_append]
          exact interleaving_cons_nil ih
      | cons a l ih2 =>
          rw [List.flatten_cons, List.cons_append]
          exact Interleaving.cons PickHead.here ih2

lemma concRunSuite_flatten (s : TestSuite) :
    ConcRunSuite s (suitePrefix s ++ (concItems s).flatten ++ suiteSuffix s) :=
  ⟨(concItems s).flatten, interleaving_flatten _, rfl⟩

/-- Claim C2: for a suite with a fixture, in sequential mode and for every
trace of the concurrent mode, the run is the suite header, then the
BeforeAll call, then a middle section containing everything the tasks and
skips produce, then the AfterAll call and the closing blank line; the
middle is free of suite brackets, so BeforeAll completes before any task
starts and AfterAll follows every task event, every Running Test Case line
included. -/
theorem suite_brackets_enclose_all_tasks (s : TestSuite) (h : s.hasFixture = true) :
    BracketedTrace s.name (runSuiteSequential s)
    ∧ ∀ tr, ConcRunSuite s tr → BracketedTrace s.name tr := by
  constructor
  · refine ⟨s.testCases.flatMap (fun tc => seqCaseEvents s.name s.hasFixture tc), ?_, ?_⟩
    · unfold runSuiteSequential suitePrefix suiteSuffix
      rw [h]
      simp
    · intro e he
      rcases List.mem_flatMap.mp he with ⟨tc, _, hmem⟩
      exact inner_not_bracket (seqCaseEvents_inner s.name s.hasFixture tc e hmem)
  · rintro tr ⟨m, hint, rfl⟩
    refine ⟨m, ?_, ?_⟩
    · unfold suitePrefix suiteSuffix
      rw [h]
      simp
    · intro e he
      rcases interleaving_mem hint e he with ⟨l, hl, hel⟩
      exact inner_not_bracket (concItems_inner s l hl e hel)

theorem suite_brackets_witness :
    c2Suite.hasFixture = true
    ∧ (BracketedTrace c2Suite.name (runSuiteSequential c2Suite)
        ∧ ∀ tr, ConcRunSuite c2Suite tr → BracketedTrace c2Suite.name tr) :=
  ⟨rfl, suite_brackets_enclose_all_tasks c2Suite rfl⟩

end TestFramework
